import Mathlib

/-!
Shallow embedding of `src/providers/npm/npmCodeLensProvider.js` from the
vscode-versionlens repository (the `NpmCodeLensProvider` class), together
with theorems checking the natural-language specification against it.

The provider is orchestration glue: the external collaborators
(`npmPackageParser`, `dependencyParser`, `npmAPI`, `decorations`,
`commandFactory`, `codeLensGeneration`, the `vscode` host) are modelled as
boundary data or as function-valued parameters, exactly at the points where
the source calls them.  All control flow, state updates and branch
structure of the provider file itself are translated directly.
-/

namespace NpmProvider

/-- Registry tag metadata (`codeLens.package.meta.tag`): carries a version
string. -/
structure Tag where
  version : String
deriving DecidableEq, Repr

/-- Package metadata (`codeLens.package.meta`): a `type` field (may be
absent in JS, hence `Option`) and a `tag` (may be absent). -/
structure Meta where
  type : Option String
  tag : Option Tag
deriving DecidableEq, Repr

/-- The package record attached to a code lens (`codeLens.package`):
name, declared version string, and optional metadata (`meta` may be a
missing/falsy property in JS, hence `Option`). -/
structure Package where
  name : String
  version : String
  meta : Option Meta
deriving DecidableEq, Repr

/-- A code lens as consumed by `evaluateCodeLens`.  The boolean predicates
(`packageNotFound`, `isTaggedVersion`, ...) are owned by the excluded
`npmPackageParser` collaborator; the provider only calls them, so they are
modelled as boolean fields of the lens.  `getTaggedVersion` is likewise an
externally computed string, and `replaceRange` the text range the
decorations are rendered at. -/
structure CodeLens where
  package : Package
  packageNotFound : Bool
  packageNotSupported : Bool
  isTaggedVersion : Bool
  isInvalidVersion : Bool
  versionMatchNotFound : Bool
  matchesPrereleaseVersion : Bool
  matchesLatestVersion : Bool
  satisfiesLatestVersion : Bool
  isFixedVersion : Bool
  getTaggedVersion : String
  replaceRange : Nat × Nat
deriving DecidableEq, Repr

/-- One entry of the outdated cache, as produced by `npmGetOutdated`:
a package name and the locally installed ("current") version.  `current`
may be absent/falsy in the npm output (the source guards `if (!current)`),
hence `Option`. -/
structure OutdatedEntry where
  name : String
  current : Option String
deriving DecidableEq, Repr

/-- The commands the `commandFactory` collaborator can build; `version`
(the `createVersionCommand` fallback) carries the declared version and the
tagged version the source passes to the factory. -/
inductive Command where
  | github
  | link
  | packageNotFoundCmd
  | packageNotSupportedCmd
  | taggedVersion
  | invalid
  | versionMatchNotFoundCmd
  | matchesPrerelease
  | matchesLatest
  | satisfiesLatest
  | fixedVersion
  | version (declared : String) (tagVersion : String)
deriving DecidableEq, Repr

/-- The decorations the `decorations` collaborator can render. -/
inductive Decoration where
  | missing
  | installed (version : String)
  | prereleaseInstalled (version : String)
  | outdated (current : String)
  | needsUpdate (current : String)
deriving DecidableEq, Repr

/-- Outcome of the decoration pipeline for one lens: either a decoration
was rendered at the lens's replace range, or the error raised inside the
promise chain was caught and logged to the console (`.catch(console.error)`). -/
inductive DecorationEffect where
  | rendered (range : Nat × Nat) (d : Decoration)
  | loggedError (e : String)
deriving DecidableEq, Repr

/-- `codeLens.package.meta.tag.version` as evaluated inside
`generateDecoration`: dereferencing `meta` or `tag` when absent raises a
TypeError, which the surrounding promise chain catches. -/
def metaTagVersion (cl : CodeLens) : Except String String :=
  match cl.package.meta with
  | none => .error "TypeError: meta is undefined"
  | some m =>
    match m.tag with
    | none => .error "TypeError: tag is undefined"
    | some t => .ok t.version

/-- JS truthiness test applied to the cache entry's `current` field
(`if (!current)` in the source): absent or empty string is falsy. -/
def currentFalsy : Option String → Bool
  | none => true
  | some s => s = ""

/-- Body of the promise callback in `generateDecoration` (the part after
the install-directory check): looks the package up in the outdated cache
and picks the decoration; errors raised by the `meta.tag.version`
dereference surface as `.error`. -/
def decorationOfCache (cl : CodeLens) (outdated : List OutdatedEntry) :
    Except String Decoration :=
  match outdated.find? (fun entry => entry.name == cl.package.name) with
  | none => (metaTagVersion cl).map fun v => .installed v
  | some entry =>
    (metaTagVersion cl).map fun entered =>
      if currentFalsy entry.current then .missing
      else
        let current := entry.current.getD ""
        if current = entered then
          if cl.matchesLatestVersion then .installed current
          else if cl.matchesPrereleaseVersion then .prereleaseInstalled entered
          else .outdated current
        else .needsUpdate current

/-- `generateDecoration`: if the package's install directory does not
exist (`npmPackageDirExists`, an external check passed in as `dirExists`)
the missing decoration is rendered synchronously; otherwise the outdated
cache is consulted and any error in that pipeline is caught and logged. -/
def generateDecoration (dirExists : Bool) (outdated : List OutdatedEntry)
    (cl : CodeLens) : DecorationEffect :=
  if !dirExists then .rendered cl.replaceRange .missing
  else
    match decorationOfCache cl outdated with
    | .ok d => .rendered cl.replaceRange d
    | .error e => .loggedError e

/-- The predicate chain of `evaluateCodeLens` from the `isInvalidVersion`
check down to the `createVersionCommand` fallback (source lines 96-124). -/
def evaluateAfterDecoration (cl : CodeLens) : Command :=
  if cl.isInvalidVersion then .invalid
  else if cl.versionMatchNotFound then .versionMatchNotFoundCmd
  else if cl.matchesPrereleaseVersion then .matchesPrerelease
  else if cl.matchesLatestVersion then .matchesLatest
  else if cl.satisfiesLatestVersion then .satisfiesLatest
  else if cl.isFixedVersion then .fixedVersion
  else .version cl.package.version cl.getTaggedVersion

/-- The part of `evaluateCodeLens` starting at the `packageNotFound`
check (source line 80), i.e. the continuation both the `meta`-present and
`meta`-absent paths fall through to.  Returns the resolved command and the
decoration effect emitted at step 6, if any. -/
def evaluateFromNotFound (showDependencyStatuses dirExists : Bool)
    (outdated : List OutdatedEntry) (cl : CodeLens) :
    Command × Option DecorationEffect :=
  if cl.packageNotFound then (.packageNotFoundCmd, none)
  else if cl.packageNotSupported then (.packageNotSupportedCmd, none)
  else if cl.isTaggedVersion then (.taggedVersion, none)
  else
    let deco :=
      if showDependencyStatuses then
        some (generateDecoration dirExists outdated cl)
      else none
    (evaluateAfterDecoration cl, deco)

/-- `evaluateCodeLens`: the full command-resolution chain, including the
`meta.type` checks guarded by the truthiness of `codeLens.package.meta`.
`showDependencyStatuses` is the app setting read at step 6, `dirExists`
the result of the external `npmPackageDirExists` check, and `outdated`
the current outdated cache (both only consumed by the decoration path). -/
def evaluateCodeLens (showDependencyStatuses dirExists : Bool)
    (outdated : List OutdatedEntry) (cl : CodeLens) :
    Command × Option DecorationEffect :=
  match cl.package.meta with
  | some m =>
    if m.type = some "github" then (.github, none)
    else if m.type = some "file" then (.link, none)
    else evaluateFromNotFound showDependencyStatuses dirExists outdated cl
  | none => evaluateFromNotFound showDependencyStatuses dirExists outdated cl

/-- Whether the lens's metadata is present with type github or file, i.e.
whether one of the first two checks of `evaluateCodeLens` fires. -/
def metaTypeGithubOrFile (cl : CodeLens) : Bool :=
  match cl.package.meta with
  | some m => m.type = some "github" || m.type = some "file"
  | none => false

/-- Command resolution as the specification words it ("priority order,
first match wins", steps 3-5 and 7-13), for comparison with
`evaluateCodeLens`.  Written from the spec, not from the source. -/
def specCommandResolution (cl : CodeLens) : Command :=
  if cl.packageNotFound then .packageNotFoundCmd
  else if cl.packageNotSupported then .packageNotSupportedCmd
  else if cl.isTaggedVersion then .taggedVersion
  else if cl.isInvalidVersion then .invalid
  else if cl.versionMatchNotFound then .versionMatchNotFoundCmd
  else if cl.matchesPrereleaseVersion then .matchesPrerelease
  else if cl.matchesLatestVersion then .matchesLatest
  else if cl.satisfiesLatestVersion then .satisfiesLatest
  else if cl.isFixedVersion then .fixedVersion
  else .version cl.package.version cl.getTaggedVersion

/-- The parsed manifest document produced by `jsonParser.parse`
(`vscode-contrib-jsonc`, an external collaborator): a root node (absent
when there is none) and the list of validation errors. -/
structure JsonDoc where
  root : Option String
  validationErrors : List String
deriving DecidableEq, Repr

/-- The host text document as far as the provider reads it: the file
system path of its URI and the outcome of parsing its text (`none` models
`jsonParser.parse` returning a falsy result). -/
structure Document where
  fsPath : String
  parseResult : Option JsonDoc
deriving DecidableEq, Repr

/-- The host-provided cancellation token (second parameter of
`provideCodeLenses`). -/
structure CancellationToken where
  isCancellationRequested : Bool
deriving DecidableEq, Repr

/-- The `appSettings` flags the provider reads. -/
structure AppSettings where
  showVersionLenses : Bool
  showDependencyStatuses : Bool
deriving DecidableEq, Repr

/-- The `appConfig` fields the provider reads. -/
structure AppConfig where
  npmDependencyProperties : List String
deriving DecidableEq, Repr

/-- A dependency node extracted from the manifest tree by the external
`extractDependencyNodes` collaborator. -/
structure DependencyNode where
  name : String
  version : String
deriving DecidableEq, Repr

/-- The instance fields of `NpmCodeLensProvider`: the shared outdated
cache and the document path, both mutable state on the provider object. -/
structure ProviderState where
  _outdatedCache : List OutdatedEntry
  _documentPath : String
deriving DecidableEq, Repr

/-- The external collaborators `provideCodeLenses` calls, as
function-valued parameters: `path.dirname`, the dependency extractor and
parser, the npm outdated query (which may reject, hence `Except`), and
the lens generator. -/
structure Collaborators where
  dirname : String → String
  extractDependencyNodes : String → List String → List DependencyNode
  parseDependencyNodes : List DependencyNode → AppConfig → List Package
  npmGetOutdated : String → Except String (List OutdatedEntry)
  generateCodeLenses : List Package → Document → List CodeLens

/-- Observable steps of one `provideCodeLenses` invocation, in order:
calls into the extraction/parsing collaborators, the `inProgress` flag
writes, the cache refresh (recording the query outcome), console logs,
and the call to `generateCodeLenses`. -/
inductive Step where
  | extractDeps
  | parseDeps
  | setInProgress (b : Bool)
  | refreshCache (result : Except String (List OutdatedEntry))
  | logError (msg : String)
  | generateLenses
deriving Repr

/-- What `provideCodeLenses` returns: `undef` models the bare `return`
(JS `undefined`), `empty` the `return []`, and `lenses` the promise
resolving to the generated lens list. -/
inductive LensResult where
  | undef
  | empty
  | lenses (ls : List CodeLens)
deriving DecidableEq, Repr

/-- `updateOutdated`: queries npm for outdated packages and assigns the
whole result to `_outdatedCache`; a rejection is caught and logged
(`console.log("npmGetOutdated", err)`), leaving the cache untouched and
the returned promise resolving normally.  Returns the new cache value and
the console log lines. -/
def updateOutdated (fetchResult : Except String (List OutdatedEntry))
    (cache : List OutdatedEntry) : List OutdatedEntry × List String :=
  match fetchResult with
  | .ok results => (results, [])
  | .error err => (cache, ["npmGetOutdated " ++ err])

/-- `provideCodeLenses`: feature-flag check, `_documentPath` update,
manifest parse/validation check, dependency extraction and parsing, then
the awaited cache refresh followed by lens generation.  Returns the lens
result, the updated provider state, and the trace of observable steps. -/
def provideCodeLenses (c : Collaborators) (config : AppConfig)
    (settings : AppSettings) (document : Document)
    (token : CancellationToken) (st : ProviderState) :
    LensResult × ProviderState × List Step :=
  if settings.showVersionLenses = false then (.undef, st, [])
  else
    let st1 := { st with _documentPath := c.dirname document.fsPath }
    match document.parseResult with
    | none => (.empty, st1, [])
    | some jsonDoc =>
      match jsonDoc.root with
      | none => (.empty, st1, [])
      | some root =>
        if jsonDoc.validationErrors.length > 0 then (.empty, st1, [])
        else
          let dependencyNodes := c.extractDependencyNodes root
            config.npmDependencyProperties
          let packageCollection := c.parseDependencyNodes dependencyNodes
            config
          let fetchResult := c.npmGetOutdated st1._documentPath
          let refreshed := updateOutdated fetchResult st1._outdatedCache
          let st2 := { st1 with _outdatedCache := refreshed.1 }
          let lenses := c.generateCodeLenses packageCollection document
          (.lenses lenses, st2,
            [Step.extractDeps, Step.parseDeps, Step.setInProgress true,
              Step.refreshCache fetchResult]
            ++ refreshed.2.map Step.logError
            ++ [Step.setInProgress false, Step.generateLenses])

/-- Recognizer for the needs-update decoration outcome. -/
def DecorationEffect.isNeedsUpdate : DecorationEffect → Bool
  | .rendered _ (.needsUpdate _) => true
  | _ => false

/-- Recognizer for the cache-refresh step in a trace. -/
def Step.isRefresh : Step → Bool
  | .refreshCache _ => true
  | _ => false

/-- Recognizer for the lens-generation step in a trace. -/
def Step.isGenerate : Step → Bool
  | .generateLenses => true
  | _ => false

/-- Recognizer for a `lenses` result of `provideCodeLenses`. -/
def LensResult.isLenses : LensResult → Bool
  | .lenses _ => true
  | _ => false

/-- A concrete lens on an ordinary registry package, used as witness
input: metadata present with a non-github, non-file type, every predicate
false except `matchesLatestVersion`. -/
def registryMeta : Meta :=
  { type := some "registry", tag := some { version := "4.17.21" } }

def registryLens : CodeLens :=
  { package :=
      { name := "lodash", version := "^4.17.0", meta := some registryMeta },
    packageNotFound := false, packageNotSupported := false,
    isTaggedVersion := false, isInvalidVersion := false,
    versionMatchNotFound := false, matchesPrereleaseVersion := false,
    matchesLatestVersion := true, satisfiesLatestVersion := false,
    isFixedVersion := false, getTaggedVersion := "4.17.21",
    replaceRange := (3, 20) }

theorem evaluateFromNotFound_fst (s d : Bool) (o : List OutdatedEntry)
    (cl : CodeLens) :
    (evaluateFromNotFound s d o cl).1 = specCommandResolution cl := by
  unfold evaluateFromNotFound specCommandResolution evaluateAfterDecoration
  by_cases h1 : cl.packageNotFound <;> by_cases h2 : cl.packageNotSupported <;>
    by_cases h3 : cl.isTaggedVersion <;> simp [h1, h2, h3]

theorem specCommandResolution_ne_github_link (cl : CodeLens) :
    specCommandResolution cl ≠ .github ∧ specCommandResolution cl ≠ .link := by
  unfold specCommandResolution
  split_ifs <;> simp

/-- C1: for every lens whose metadata does not carry type github or file,
`evaluateCodeLens` resolves its command exactly as the spec's priority
chain (packageNotFound, packageNotSupported, isTaggedVersion,
isInvalidVersion, versionMatchNotFound, matchesPrereleaseVersion,
matchesLatestVersion, satisfiesLatestVersion, isFixedVersion, first match
wins), falling back to the generic version command built from the declared
version and the tagged version; in particular it always returns a
command. -/
theorem evaluateCodeLens_priority_order (s d : Bool)
    (o : List OutdatedEntry) (cl : CodeLens)
    (h : metaTypeGithubOrFile cl = false) :
    (evaluateCodeLens s d o cl).1 = specCommandResolution cl := by
  unfold evaluateCodeLens
  unfold metaTypeGithubOrFile at h
  cases hm : cl.package.meta with
  | none => exact evaluateFromNotFound_fst s d o cl
  | some m =>
    rw [hm] at h
    simp only [Bool.or_eq_false_iff, decide_eq_false_iff_not] at h
    simp [h.1, h.2, evaluateFromNotFound_fst]

/-- Witness for C1 at a concrete registry lens. -/
theorem evaluateCodeLens_priority_order_witness :
    metaTypeGithubOrFile registryLens = false ∧
    (evaluateCodeLens true true [] registryLens).1 =
      specCommandResolution registryLens :=
  ⟨by decide, evaluateCodeLens_priority_order true true [] registryLens
    (by decide)⟩

theorem evaluateFromNotFound_snd_isSome (s d : Bool)
    (o : List OutdatedEntry) (cl : CodeLens) :
    (evaluateFromNotFound s d o cl).2.isSome =
      (s && !cl.packageNotFound && !cl.packageNotSupported &&
        !cl.isTaggedVersion) := by
  unfold evaluateFromNotFound
  by_cases h1 : cl.packageNotFound <;> by_cases h2 : cl.packageNotSupported <;>
    by_cases h3 : cl.isTaggedVersion <;> by_cases h4 : s = true <;>
      simp [h1, h2, h3, h4]

/-- C6: a decoration effect is produced exactly when dependency statuses
are enabled and none of the first five checks fired (meta type github,
meta type file, packageNotFound, packageNotSupported, isTaggedVersion);
and the decoration setting never changes the resolved command, so command
and decoration resolution are independent channels. -/
theorem evaluateCodeLens_decoration_emission (d : Bool)
    (o : List OutdatedEntry) (cl : CodeLens) :
    (∀ s : Bool, (evaluateCodeLens s d o cl).2.isSome =
      (s && !metaTypeGithubOrFile cl && !cl.packageNotFound &&
        !cl.packageNotSupported && !cl.isTaggedVersion)) ∧
    (∀ s₁ s₂ : Bool,
      (evaluateCodeLens s₁ d o cl).1 = (evaluateCodeLens s₂ d o cl).1) := by
  constructor
  · intro s
    unfold evaluateCodeLens metaTypeGithubOrFile
    cases hm : cl.package.meta with
    | none => simp [evaluateFromNotFound_snd_isSome]
    | some m =>
      by_cases hg : m.type = some "github"
      · simp [hg]
      · by_cases hf : m.type = some "file"
        · simp [hg, hf]
        · simp [hg, hf, evaluateFromNotFound_snd_isSome]
  · intro s₁ s₂
    unfold evaluateCodeLens
    cases cl.package.meta with
    | none => rw [evaluateFromNotFound_fst, evaluateFromNotFound_fst]
    | some m =>
      by_cases hg : m.type = some "github"
      · simp [hg]
      · by_cases hf : m.type = some "file"
        · simp [hg, hf]
        · simp only [hg, hf, if_neg, if_false]
          rw [evaluateFromNotFound_fst, evaluateFromNotFound_fst]

/-- Witness for C6 at a concrete registry lens: the decoration effect is
present when the setting is on, and the command agrees with the setting
off. -/
theorem evaluateCodeLens_decoration_emission_witness :
    (evaluateCodeLens true true [] registryLens).2.isSome = true ∧
    (evaluateCodeLens true true [] registryLens).1 =
      (evaluateCodeLens false true [] registryLens).1 :=
  ⟨by rw [(evaluateCodeLens_decoration_emission true [] registryLens).1 true]
      decide,
   (evaluateCodeLens_decoration_emission true [] registryLens).2 true false⟩

/-- C10: for a lens whose package has no metadata object,
`evaluateCodeLens` skips the github/file type checks without dereferencing
`meta.type` and proceeds directly to the `packageNotFound` chain; in
particular it never returns the github or file-link command. -/
theorem evaluateCodeLens_meta_absent (s d : Bool)
    (o : List OutdatedEntry) (cl : CodeLens)
    (h : cl.package.meta = none) :
    evaluateCodeLens s d o cl = evaluateFromNotFound s d o cl ∧
    (evaluateCodeLens s d o cl).1 ≠ Command.github ∧
    (evaluateCodeLens s d o cl).1 ≠ Command.link := by
  have heq : evaluateCodeLens s d o cl = evaluateFromNotFound s d o cl := by
    unfold evaluateCodeLens
    rw [h]
  refine ⟨heq, ?_, ?_⟩
  · rw [heq, evaluateFromNotFound_fst]
    exact (specCommandResolution_ne_github_link cl).1
  · rw [heq, evaluateFromNotFound_fst]
    exact (specCommandResolution_ne_github_link cl).2

/-- A concrete lens with no metadata object, used as witness input. -/
def metalessLens : CodeLens :=
  { package := { name := "leftpad", version := "1.0.0", meta := none },
    packageNotFound := false, packageNotSupported := false,
    isTaggedVersion := false, isInvalidVersion := false,
    versionMatchNotFound := false, matchesPrereleaseVersion := false,
    matchesLatestVersion := false, satisfiesLatestVersion := false,
    isFixedVersion := false, getTaggedVersion := "1.0.0",
    replaceRange := (0, 8) }

/-- Witness for C10 at a concrete metadata-less lens. -/
theorem evaluateCodeLens_meta_absent_witness :
    evaluateCodeLens true true [] metalessLens =
      evaluateFromNotFound true true [] metalessLens ∧
    (evaluateCodeLens true true [] metalessLens).1 ≠ Command.github ∧
    (evaluateCodeLens true true [] metalessLens).1 ≠ Command.link :=
  evaluateCodeLens_meta_absent true true [] metalessLens rfl

/-- A lens for a package that sits in the outdated cache with no recorded
installed version: counterexample input for the cache-comparison claim. -/
def falsyCurrentMeta : Meta :=
  { type := some "registry", tag := some { version := "1.3.0" } }

def falsyCurrentLens : CodeLens :=
  { package :=
      { name := "left-pad", version := "1.3.0",
        meta := some falsyCurrentMeta },
    packageNotFound := false, packageNotSupported := false,
    isTaggedVersion := false, isInvalidVersion := false,
    versionMatchNotFound := false, matchesPrereleaseVersion := false,
    matchesLatestVersion := false, satisfiesLatestVersion := false,
    isFixedVersion := false, getTaggedVersion := "1.3.0",
    replaceRange := (5, 15) }

/-- A cache whose only entry names `left-pad` but records no `current`
version (npm lists a dependency that is not installed at all). -/
def falsyCurrentCache : List OutdatedEntry :=
  [{ name := "left-pad", current := none }]

/-- C3 counterexample: `left-pad` is present in the outdated cache and its
recorded installed version (absent) differs from the declared/tag version
`1.3.0`, so the claim requires the needs-update decoration; the code
instead renders the missing decoration (the `if (!current)` branch the
claim omits). -/
theorem generateDecoration_falsy_current_counterexample :
    (falsyCurrentCache.find?
      (fun entry => entry.name == falsyCurrentLens.package.name)).isSome
        = true ∧
    metaTagVersion falsyCurrentLens = .ok "1.3.0" ∧
    generateDecoration true falsyCurrentCache falsyCurrentLens =
      .rendered (5, 15) .missing ∧
    (generateDecoration true falsyCurrentCache
      falsyCurrentLens).isNeedsUpdate = false := by
  exact ⟨by decide, rfl, by decide, by decide⟩

/-- C3 (amended): for a lens whose package is present in the outdated
cache (install directory exists, some entry has its name), if the entry's
recorded `current` version is absent or empty the missing decoration is
rendered; otherwise, when `current` equals the declared/tag version the
decoration is installed (matchesLatestVersion), prerelease installed
(matchesPrereleaseVersion), or outdated (neither); and when they differ
the needs-update decoration carrying the installed version is rendered. -/
theorem generateDecoration_cache_hit (outdated : List OutdatedEntry)
    (cl : CodeLens) (entry : OutdatedEntry) (v : String)
    (hfind : outdated.find? (fun e => e.name == cl.package.name)
      = some entry)
    (hmeta : metaTagVersion cl = .ok v) :
    (currentFalsy entry.current = true →
      generateDecoration true outdated cl =
        .rendered cl.replaceRange .missing) ∧
    (∀ c : String, entry.current = some c → ¬c = "" →
      (c = v → cl.matchesLatestVersion = true →
        generateDecoration true outdated cl =
          .rendered cl.replaceRange (.installed c)) ∧
      (c = v → cl.matchesLatestVersion = false →
          cl.matchesPrereleaseVersion = true →
        generateDecoration true outdated cl =
          .rendered cl.replaceRange (.prereleaseInstalled v)) ∧
      (c = v → cl.matchesLatestVersion = false →
          cl.matchesPrereleaseVersion = false →
        generateDecoration true outdated cl =
          .rendered cl.replaceRange (.outdated c)) ∧
      (¬c = v →
        generateDecoration true outdated cl =
          .rendered cl.replaceRange (.needsUpdate c))) := by
  unfold generateDecoration decorationOfCache
  rw [hfind, hmeta]
  constructor
  · intro hfalsy
    simp [Except.map, hfalsy]
  · intro c hc hne
    refine ⟨?_, ?_, ?_, ?_⟩
    · intro hcv hlatest
      subst hcv
      simp [Except.map, currentFalsy, hc, hne, hlatest]
    · intro hcv hlatest hpre
      subst hcv
      simp [Except.map, currentFalsy, hc, hne, hlatest, hpre]
    · intro hcv hlatest hpre
      subst hcv
      simp [Except.map, currentFalsy, hc, hne, hlatest, hpre]
    · intro hcv
      simp [Except.map, currentFalsy, hc, hne, hcv]

/-- A lens whose package is installed at exactly the cached current
version and matches the latest registry version. -/
def installedMeta : Meta :=
  { type := some "registry", tag := some { version := "2.0.0" } }

def installedLens : CodeLens :=
  { package :=
      { name := "react", version := "2.0.0",
        meta := some installedMeta },
    packageNotFound := false, packageNotSupported := false,
    isTaggedVersion := false, isInvalidVersion := false,
    versionMatchNotFound := false, matchesPrereleaseVersion := false,
    matchesLatestVersion := true, satisfiesLatestVersion := false,
    isFixedVersion := false, getTaggedVersion := "2.0.0",
    replaceRange := (1, 9) }

/-- The cache entry matching `installedLens`. -/
def installedEntry : OutdatedEntry := { name := "react", current := some "2.0.0" }

/-- Witness for the amended C3 at a concrete installed package. -/
theorem generateDecoration_cache_hit_witness :
    generateDecoration true [installedEntry] installedLens =
      .rendered (1, 9) (.installed "2.0.0") :=
  ((generateDecoration_cache_hit [installedEntry] installedLens
      installedEntry "2.0.0" (by decide) rfl).2 "2.0.0" rfl
      (by decide)).1 rfl rfl

/-- C4: when the dependency's install directory does not exist the
missing decoration is rendered and the outdated cache is never consulted
(the result is the same for any two caches); when the directory exists
and no cache entry carries the package's name, the installed decoration
is rendered with the registry tag version from the package metadata. -/
theorem generateDecoration_missing_and_cache_miss
    (o₁ o₂ outdated : List OutdatedEntry) (cl : CodeLens) (v : String) :
    (generateDecoration false o₁ cl =
        .rendered cl.replaceRange .missing ∧
      generateDecoration false o₁ cl = generateDecoration false o₂ cl) ∧
    (outdated.find? (fun e => e.name == cl.package.name) = none →
      metaTagVersion cl = .ok v →
      generateDecoration true outdated cl =
        .rendered cl.replaceRange (.installed v)) := by
  refine ⟨⟨rfl, rfl⟩, ?_⟩
  intro hfind hmeta
  unfold generateDecoration decorationOfCache
  rw [hfind, hmeta]
  simp [Except.map]

/-- Witness for C4: missing decoration for an absent install directory,
and installed decoration on a cache miss, at a concrete lens. -/
theorem generateDecoration_missing_and_cache_miss_witness :
    generateDecoration false [installedEntry] registryLens =
      .rendered (3, 20) .missing ∧
    generateDecoration true [] registryLens =
      .rendered (3, 20) (.installed "4.17.21") :=
  ⟨(generateDecoration_missing_and_cache_miss [installedEntry] []
      [] registryLens "4.17.21").1.1,
   (generateDecoration_missing_and_cache_miss [installedEntry] []
      [] registryLens "4.17.21").2 rfl rfl⟩

/-- C5: every error in the cache refresh or in the decoration pipeline is
caught and logged and never re-thrown: `updateOutdated` on a rejected
query resolves normally with the cache untouched and the error logged;
`generateDecoration` maps any error of its async cache read to a logged
error; and a rejected refresh still lets `provideCodeLenses` proceed to
lens generation. -/
theorem errors_swallowed_and_logged :
    (∀ (e : String) (cache : List OutdatedEntry),
      updateOutdated (.error e) cache =
        (cache, ["npmGetOutdated " ++ e])) ∧
    (∀ (outdated : List OutdatedEntry) (cl : CodeLens) (e : String),
      decorationOfCache cl outdated = .error e →
      generateDecoration true outdated cl = .loggedError e) ∧
    (∀ (c : Collaborators) (config : AppConfig) (settings : AppSettings)
      (document : Document) (token : CancellationToken)
      (st : ProviderState) (jd : JsonDoc) (root : String) (e : String),
      settings.showVersionLenses = true →
      document.parseResult = some jd → jd.root = some root →
      jd.validationErrors = [] →
      c.npmGetOutdated (c.dirname document.fsPath) = .error e →
      (provideCodeLenses c config settings document token
        st).1.isLenses = true ∧
      (provideCodeLenses c config settings document token
        st).2.1._outdatedCache = st._outdatedCache) := by
  refine ⟨fun e cache => rfl, ?_, ?_⟩
  · intro outdated cl e herr
    unfold generateDecoration
    rw [herr]
    simp
  · intro c config settings document token st jd root e hshow hp hr hv hfetch
    unfold provideCodeLenses
    simp [hshow, hp, hr, hv, hfetch, updateOutdated, LensResult.isLenses]

/-- Collaborators whose outdated query always rejects; the other
collaborators return empty results. -/
def errCollaborators : Collaborators :=
  { dirname := fun p => p,
    extractDependencyNodes := fun _ _ => [],
    parseDependencyNodes := fun _ _ => [],
    npmGetOutdated := fun _ => .error "ENOENT",
    generateCodeLenses := fun _ _ => [] }

/-- A document that parses cleanly. -/
def sampleDoc : Document :=
  { fsPath := "/home/user/app/package.json",
    parseResult := some { root := some "rootNode", validationErrors := [] } }

def sampleConfig : AppConfig :=
  { npmDependencyProperties := ["dependencies", "devDependencies"] }

def onSettings : AppSettings :=
  { showVersionLenses := true, showDependencyStatuses := true }

def offSettings : AppSettings :=
  { showVersionLenses := false, showDependencyStatuses := true }

def sampleToken : CancellationToken := { isCancellationRequested := false }

def sampleState : ProviderState :=
  { _outdatedCache := [installedEntry], _documentPath := "/old/project" }

/-- Witness for C5 at concrete inputs: a rejected refresh is logged and
leaves the cache unchanged, a decoration error on a metadata-less lens is
logged, and a provider run with a rejected refresh still yields lenses. -/
theorem errors_swallowed_and_logged_witness :
    updateOutdated (.error "ENOENT") [installedEntry] =
      ([installedEntry], ["npmGetOutdated ENOENT"]) ∧
    generateDecoration true [] metalessLens =
      .loggedError "TypeError: meta is undefined" ∧
    (provideCodeLenses errCollaborators sampleConfig onSettings sampleDoc
      sampleToken sampleState).1.isLenses = true ∧
    (provideCodeLenses errCollaborators sampleConfig onSettings sampleDoc
      sampleToken sampleState).2.1._outdatedCache = [installedEntry] :=
  ⟨errors_swallowed_and_logged.1 "ENOENT" [installedEntry],
   errors_swallowed_and_logged.2.1 [] metalessLens
     "TypeError: meta is undefined" rfl,
   (errors_swallowed_and_logged.2.2 errCollaborators sampleConfig
     onSettings sampleDoc sampleToken sampleState
     { root := some "rootNode", validationErrors := [] } "rootNode"
     "ENOENT" rfl rfl rfl rfl rfl).1,
   (errors_swallowed_and_logged.2.2 errCollaborators sampleConfig
     onSettings sampleDoc sampleToken sampleState
     { root := some "rootNode", validationErrors := [] } "rootNode"
     "ENOENT" rfl rfl rfl rfl rfl).2⟩

/-- C2: `provideCodeLenses` returns undefined when the version-lens
feature is off, and an empty list when the parse yields no result, no
root node, or at least one validation error; in both cases the step trace
is empty, so no dependency extraction, cache refresh, or lens generation
happens. -/
theorem provideCodeLenses_early_returns (c : Collaborators)
    (config : AppConfig) (settings : AppSettings) (document : Document)
    (token : CancellationToken) (st : ProviderState) :
    (settings.showVersionLenses = false →
      provideCodeLenses c config settings document token st =
        (.undef, st, [])) ∧
    (settings.showVersionLenses = true →
      (document.parseResult = none ∨
        ∃ jd, document.parseResult = some jd ∧
          (jd.root = none ∨ jd.validationErrors.length > 0)) →
      (provideCodeLenses c config settings document token st).1 =
        .empty ∧
      (provideCodeLenses c config settings document token st).2.2 = []) := by
  constructor
  · intro hoff
    unfold provideCodeLenses
    rw [hoff]
    simp
  · intro hon hbad
    unfold provideCodeLenses
    rcases hbad with hnone | ⟨jd, hjd, hroot | herrs⟩
    · simp [hon, hnone]
    · simp [hon, hjd, hroot]
    · cases hr : jd.root with
      | none => simp [hon, hjd, hr]
      | some root => simp [hon, hjd, hr, herrs]

/-- The parse result of a manifest with a validation error. -/
def invalidJsonDoc : JsonDoc :=
  { root := some "rootNode", validationErrors := ["unexpected token"] }

/-- A document whose parse reports a validation error. -/
def invalidDoc : Document :=
  { fsPath := "/home/user/app/package.json",
    parseResult := some invalidJsonDoc }

/-- Witness for C2: a disabled-setting run returns undefined and an
invalid-manifest run returns the empty list, both with an empty trace. -/
theorem provideCodeLenses_early_returns_witness :
    provideCodeLenses errCollaborators sampleConfig offSettings sampleDoc
      sampleToken sampleState = (.undef, sampleState, []) ∧
    (provideCodeLenses errCollaborators sampleConfig onSettings invalidDoc
      sampleToken sampleState).1 = .empty ∧
    (provideCodeLenses errCollaborators sampleConfig onSettings invalidDoc
      sampleToken sampleState).2.2 = [] :=
  ⟨(provideCodeLenses_early_returns errCollaborators sampleConfig
      offSettings sampleDoc sampleToken sampleState).1 rfl,
   (provideCodeLenses_early_returns errCollaborators sampleConfig
      onSettings invalidDoc sampleToken sampleState).2 rfl
      (Or.inr ⟨invalidJsonDoc, rfl, Or.inr (by decide)⟩)⟩

/-- C9: `provideCodeLenses` never reads its cancellation token: two
invocations differing only in the token return the same result, the same
provider state, and the same step trace. -/
theorem provideCodeLenses_ignores_token (c : Collaborators)
    (config : AppConfig) (settings : AppSettings) (document : Document)
    (t₁ t₂ : CancellationToken) (st : ProviderState) :
    provideCodeLenses c config settings document t₁ st =
      provideCodeLenses c config settings document t₂ st := rfl

/-- C7 counterexample: an invocation with version lenses disabled returns
before line 42, so `_documentPath` keeps its previous value and is not
overwritten with the requesting document's directory. -/
theorem provideCodeLenses_documentPath_counterexample :
    (provideCodeLenses errCollaborators sampleConfig offSettings sampleDoc
      sampleToken sampleState).2.1._documentPath = "/old/project" ∧
    errCollaborators.dirname sampleDoc.fsPath ≠ "/old/project" := by
  exact ⟨rfl, by decide⟩

/-- C7 (amended): every invocation that passes the `showVersionLenses`
check overwrites `_documentPath` with the requesting document's directory
(even when the parse then fails), and on every request that reaches the
refresh stage with a successful query the whole query result replaces
`_outdatedCache`, independently of the previous cache contents. -/
theorem provideCodeLenses_overwrites_state (c : Collaborators)
    (config : AppConfig) (settings : AppSettings) (document : Document)
    (token : CancellationToken) (st : ProviderState)
    (hshow : settings.showVersionLenses = true) :
    (provideCodeLenses c config settings document token
      st).2.1._documentPath = c.dirname document.fsPath ∧
    (∀ (jd : JsonDoc) (root : String) (results : List OutdatedEntry),
      document.parseResult = some jd → jd.root = some root →
      jd.validationErrors = [] →
      c.npmGetOutdated (c.dirname document.fsPath) = .ok results →
      (provideCodeLenses c config settings document token
        st).2.1._outdatedCache = results) := by
  constructor
  · unfold provideCodeLenses
    cases hp : document.parseResult with
    | none => simp [hshow, hp]
    | some jd =>
      cases hr : jd.root with
      | none => simp [hshow, hp, hr]
      | some root =>
        by_cases hv : jd.validationErrors.length > 0
        · simp [hshow, hp, hr, hv]
        · simp [hshow, hp, hr, hv]
  · intro jd root results hp hr hv hfetch
    unfold provideCodeLenses
    simp [hshow, hp, hr, hv, hfetch, updateOutdated]

/-- Collaborators whose outdated query succeeds with one entry. -/
def okCollaborators : Collaborators :=
  { dirname := fun _ => "/home/user/app",
    extractDependencyNodes := fun _ _ => [],
    parseDependencyNodes := fun _ _ => [],
    npmGetOutdated := fun _ => .ok [installedEntry],
    generateCodeLenses := fun _ _ => [] }

/-- Witness for the amended C7: a concrete run overwrites both the
document path and the whole cache. -/
theorem provideCodeLenses_overwrites_state_witness :
    (provideCodeLenses okCollaborators sampleConfig onSettings sampleDoc
      sampleToken sampleState).2.1._documentPath = "/home/user/app" ∧
    (provideCodeLenses okCollaborators sampleConfig onSettings sampleDoc
      sampleToken sampleState).2.1._outdatedCache = [installedEntry] :=
  ⟨(provideCodeLenses_overwrites_state okCollaborators sampleConfig
      onSettings sampleDoc sampleToken sampleState rfl).1,
   (provideCodeLenses_overwrites_state okCollaborators sampleConfig
      onSettings sampleDoc sampleToken sampleState rfl).2
      { root := some "rootNode", validationErrors := [] } "rootNode"
      [installedEntry] rfl rfl rfl rfl⟩

/-- C8: on every invocation that reaches lens generation the step trace
contains exactly one cache refresh and exactly one lens generation, and
the refresh comes strictly before the generation: lens generation awaits
the cache refresh exactly once and runs against the refreshed cache. -/
theorem provideCodeLenses_refresh_before_generate (c : Collaborators)
    (config : AppConfig) (settings : AppSettings) (document : Document)
    (token : CancellationToken) (st : ProviderState) (jd : JsonDoc)
    (root : String) (hshow : settings.showVersionLenses = true)
    (hp : document.parseResult = some jd) (hr : jd.root = some root)
    (hv : jd.validationErrors = []) :
    ((provideCodeLenses c config settings document token
      st).2.2.countP Step.isRefresh = 1) ∧
    ((provideCodeLenses c config settings document token
      st).2.2.countP Step.isGenerate = 1) ∧
    ((provideCodeLenses c config settings document token
        st).2.2.findIdx Step.isRefresh <
      (provideCodeLenses c config settings document token
        st).2.2.findIdx Step.isGenerate) := by
  unfold provideCodeLenses
  cases hfetch : c.npmGetOutdated (c.dirname document.fsPath) with
  | ok results =>
    simp [hshow, hp, hr, hv, hfetch, updateOutdated, List.countP_cons,
      List.findIdx_cons, Step.isRefresh, Step.isGenerate]
  | error e =>
    simp [hshow, hp, hr, hv, hfetch, updateOutdated, List.countP_cons,
      List.findIdx_cons, Step.isRefresh, Step.isGenerate]

/-- Witness for C8 at a concrete run with a successful refresh. -/
theorem provideCodeLenses_refresh_before_generate_witness :
    ((provideCodeLenses okCollaborators sampleConfig onSettings sampleDoc
      sampleToken sampleState).2.2.countP Step.isRefresh = 1) ∧
    ((provideCodeLenses okCollaborators sampleConfig onSettings sampleDoc
      sampleToken sampleState).2.2.countP Step.isGenerate = 1) ∧
    ((provideCodeLenses okCollaborators sampleConfig onSettings sampleDoc
        sampleToken sampleState).2.2.findIdx Step.isRefresh <
      (provideCodeLenses okCollaborators sampleConfig onSettings sampleDoc
        sampleToken sampleState).2.2.findIdx Step.isGenerate) :=
  provideCodeLenses_refresh_before_generate okCollaborators sampleConfig
    onSettings sampleDoc sampleToken sampleState
    { root := some "rootNode", validationErrors := [] } "rootNode"
    rfl rfl rfl rfl

end NpmProvider
